import Mathlib

/-!
Verification of the Gemini scheduler observation-scoring core
(`observation.py`): the per-band piecewise priority curve, the cross-band
parameter derivation, completion computation, the `add_obs` validation and
the descending-priority ordering produced by `tick`.

Numbers are modelled as exact rationals (`ℚ`); Python floats carry the same
algebraic relations here since every constant involved is decimal.
-/

namespace GeminiSched

/-- Modelled from the spec: `resources.Site`, the external enumeration of the
two observatory sites; `resources.py` is not among the repository sources. -/
inductive Site where
  | GN : Site
  | GS : Site
deriving DecidableEq, Repr

/-- The per-band curve parameters: one inner dict of `Observations.params`. -/
structure BandParams where
  m1 : ℚ
  b1 : ℚ
  m2 : ℚ
  b2 : ℚ
  xb : ℚ
  xb0 : ℚ
  xc0 : ℚ
deriving DecidableEq, Repr

/-- The band labels are the Python strings used as dict keys. -/
def band1 : String := "1"

def band2 : String := "2"

def band3 : String := "3"

def band4 : String := "4"

/-- The literal `self.params` table assigned in `Observations.__init__`
(lines 46-50) before the spreading loop runs. -/
def initTable : List (String × BandParams) :=
  [(band1, ⟨1406/1000, 2, 1/2, 1/2, 4/5, 0, 0⟩),
   (band2, ⟨1406/1000, 1, 1/2, 1/2, 4/5, 0, 0⟩),
   (band3, ⟨1406/1000, 0, 1/2, 1/2, 4/5, 0, 0⟩),
   (band4, ⟨0, 0, 0, 0, 4/5, 0, 0⟩)]

/-- The `m2` spreading table: `m2 = {'3': 1.0, '2': 6.0, '1': 20.0}`. -/
def m2Spread (b : String) : ℚ :=
  if b = band3 then 1 else if b = band2 then 6 else 20

/-- One iteration body of the spreading loop in `__init__` (lines 57-64):
dict-entry mutation of the band's `m1, m2, b1, b2, xb` fields, with the local
`xb = 0.8`. -/
def applySpread (band : String) (b1 : ℚ) (t : List (String × BandParams)) :
    List (String × BandParams) :=
  let m2v := m2Spread band
  let b2 := b1 + 5 - m2v
  let m1 := (m2v * (4/5) + b2) / (4/5 : ℚ)^2
  t.map (fun kv => if kv.1 = band then
    (kv.1, { kv.2 with m1 := m1, m2 := m2v, b1 := b1, b2 := b2, xb := 4/5 })
    else kv)

/-- The accumulator update `b1 += m2[band] * 1.0 + b2` (line 65). -/
def nextB1 (band : String) (b1 : ℚ) : ℚ :=
  b1 + (m2Spread band * 1 + (b1 + 5 - m2Spread band))

/-- The spreading loop `for band in ['3', '2', '1']` of `__init__`, starting
from the literal table and `b1 = 0.2`. -/
def spreadFold : List (String × BandParams) × ℚ :=
  [band3, band2, band1].foldl
    (fun acc band => (applySpread band acc.2 acc.1, nextB1 band acc.2))
    (initTable, 1/5)

/-- The parameter table held by a freshly constructed `Observations`. -/
def defaultTable : List (String × BandParams) := spreadFold.1

/-- Python dict lookup `self.params[sband]`; `none` models a `KeyError`. -/
def lookupTable (t : List (String × BandParams)) (k : String) :
    Option BandParams :=
  (t.find? (fun kv => kv.1 = k)).map Prod.snd

/-- Dict-entry mutation `self.params[band]['xb'] = v` (the table is mutable
instance state). -/
def setXb (t : List (String × BandParams)) (k : String) (v : ℚ) :
    List (String × BandParams) :=
  t.map (fun kv => if kv.1 = k then (kv.1, { kv.2 with xb := v }) else kv)

/-- The state of an `Observations` object: the parallel per-observation
arrays, the current timeslot and the (mutable) parameter table. -/
structure Observations where
  num_obs : ℕ
  band : List String
  completed : List ℚ
  used_time : List ℚ
  allocated_time : List ℚ
  obs_time : List ℚ
  valid_site_times : List (List (ℕ × List Site))
  priority : List ℚ
  timeslot : ℕ
  params : List (String × BandParams)
deriving DecidableEq

/-- The state `Observations.__init__` produces: empty arrays and the derived
parameter table. -/
def initialObservations : Observations :=
  { num_obs := 0, band := [], completed := [], used_time := [],
    allocated_time := [], obs_time := [], valid_site_times := [],
    priority := [], timeslot := 0, params := defaultTable }

/-- `Observations.add_obs`. The `assert (allocated_time != 0)` runs before
any mutation; the returned `Bool` is `false` when the assert raises
`AssertionError`, in which case the object state is the unchanged input. -/
def add_obs (s : Observations) (band : String)
    (valid_times : List (ℕ × List Site)) (allocated_time : ℚ)
    (obs_time : ℚ) : Observations × Bool :=
  if allocated_time ≠ 0 then
    ({ s with band := s.band ++ [band],
              valid_site_times := s.valid_site_times ++ [valid_times],
              used_time := s.used_time ++ [0],
              allocated_time := s.allocated_time ++ [allocated_time],
              obs_time := s.obs_time ++ [obs_time],
              num_obs := s.num_obs + 1 }, true)
  else (s, false)

/-- Elementwise zip of three lists, the shape of a ternary numpy
vectorized operation. -/
def zipWith3 (f : α → β → γ → δ) : List α → List β → List γ → List δ
  | a :: as, b :: bs, c :: cs => f a b c :: zipWith3 f as bs cs
  | _, _, _ => []

/-- One element of `calculate_completion`:
`time = (used_time + obs_time) / allocated_time` followed by
`np.where(time > 1., 1., time)`. -/
def calcCompletionOne (u a o : ℚ) : ℚ :=
  let time := (u + o) / a
  if time > 1 then 1 else time

/-- `Observations.calculate_completion`, vectorized over the arrays. -/
def calculate_completion (s : Observations) : List ℚ :=
  zipWith3 calcCompletionOne s.used_time s.allocated_time s.obs_time

/-- The comparison `self.band[ii] == 3` from `calculate_priority` (line 126):
a numpy string element compared with the int literal `3`. Both
`str.__eq__` and `int.__eq__` return `NotImplemented` on the mixed pair, so
Python evaluates the comparison to `False` for every band string. -/
def pyStrIntEq (_s : String) (_n : Int) : Bool := false

/-- The body of the `calculate_priority` loop for one observation: band
lookup (a `KeyError` is `none`), the band-3 `xb` guard, the recomputed
intercept `b2 = b2 + xb0 + b1`, and the piecewise metric. -/
def calculate_priority_one (table : List (String × BandParams))
    (band : String) (c : ℚ) : Option ℚ :=
  (lookupTable table band).map (fun p =>
    let xb : ℚ := if pyStrIntEq band 3 then 4/5 else p.xb
    let b2 : ℚ := p.b2 + p.xb0 + p.b1
    if c = 0 then 0
    else if c < xb then p.m1 * c^2 + p.b1
    else if c < 1 then p.m2 * c + b2
    else p.m2 * 1 + b2 + p.xc0)

/-- Maps a fallible function over a list, failing when any element fails:
the metric loop aborts on the first `KeyError`. -/
def mapOpt (f : α → Option β) : List α → Option (List β)
  | [] => some []
  | x :: xs => (f x).bind (fun y => (mapOpt f xs).map (fun ys => y :: ys))

/-- `Observations.calculate_priority`: completion for all observations, then
the piecewise metric per observation. -/
def calculate_priority (s : Observations) : Option (List ℚ) :=
  mapOpt (fun bc => calculate_priority_one s.params bc.1 bc.2)
    (s.band.zip (calculate_completion s))

/-- Ascending lexicographic order on `(priority, index)` pairs: Python tuple
comparison as used by `sorted`. -/
def lexLe (p q : ℚ × ℕ) : Prop :=
  p.1 < q.1 ∨ (p.1 = q.1 ∧ p.2 ≤ q.2)

instance : DecidableRel lexLe := fun p q => by
  unfold lexLe; infer_instance

instance : IsTotal (ℚ × ℕ) lexLe where
  total p q := by
    rcases lt_trichotomy p.1 q.1 with h | h | h
    · exact Or.inl (Or.inl h)
    · rcases Nat.le_total p.2 q.2 with h2 | h2
      · exact Or.inl (Or.inr ⟨h, h2⟩)
      · exact Or.inr (Or.inr ⟨h.symm, h2⟩)
    · exact Or.inr (Or.inl h)

instance : IsTrans (ℚ × ℕ) lexLe where
  trans p q r h1 h2 := by
    rcases h1 with h1 | ⟨h1, h1'⟩
    · rcases h2 with h2 | ⟨h2, _⟩
      · exact Or.inl (h1.trans h2)
      · exact Or.inl (h2 ▸ h1)
    · rcases h2 with h2 | ⟨h2, h2'⟩
      · exact Or.inl (h1 ▸ h2)
      · exact Or.inr ⟨h1.trans h2, h1'.trans h2'⟩

/-- The ordering expression of `tick` (line 90):
`list(zip(*list(reversed(sorted(list(zip(priority, range(len(priority))))))))[1]`.
`sorted` is the ascending lexicographic sort of `(priority, index)` pairs,
`reversed` flips it, `zip(*_)` transposes, and `[1]` takes the index row —
an `IndexError` (`none`) when the pair list is empty. -/
def tickOrder (pr : List ℚ) : Option (List ℕ) :=
  if ((List.insertionSort lexLe (pr.zip (List.range pr.length))).reverse).isEmpty
  then none
  else some (((List.insertionSort lexLe
    (pr.zip (List.range pr.length))).reverse).map Prod.snd)

/-- `Observations.tick`: sets the timeslot, recomputes priorities, and
produces the descending-priority index sequence it prints. The timeslot is
used only for display. -/
def tick (s : Observations) (_timeslot : ℕ) : Option (List ℕ) :=
  (calculate_priority s).bind tickOrder

/-- The priority value `tick` computes for a band and completion fraction
under the freshly derived table, read off the `Option` (`0` for a missing
band, which cannot occur for the four table bands). -/
def prioVal (b : String) (c : ℚ) : ℚ :=
  (calculate_priority_one defaultTable b c).getD 0

/-- The spec's piecewise priority formula (§4.2 of the design): parameters
`m1, b1, m2`, the evaluation-time intercept `b2x` (the spec's recomputed
`b2 + xb0 + b1`), the offset `xc0`, with the segment-switch threshold the
table value `xb = 0.8`. Stated from the spec's words for comparison with
`calculate_priority_one`. -/
def specPriorityCurve (m1 b1 m2 b2x xc0 c : ℚ) : ℚ :=
  if c = 0 then 0
  else if c < 4/5 then m1 * c^2 + b1
  else if c < 1 then m2 * c + b2x
  else m2 * 1 + b2x + xc0

lemma lookup_band1 :
    lookupTable defaultTable band1 = some ⟨105/4, 79/5, 20, 4/5, 4/5, 0, 0⟩ := by
  simp [lookupTable, defaultTable, spreadFold, initTable, applySpread,
    nextB1, m2Spread, band1, band2, band3, band4]
  norm_num

lemma lookup_band2 :
    lookupTable defaultTable band2 = some ⟨115/8, 27/5, 6, 22/5, 4/5, 0, 0⟩ := by
  simp [lookupTable, defaultTable, spreadFold, initTable, applySpread,
    nextB1, m2Spread, band1, band2, band3, band4]
  norm_num

lemma lookup_band3 :
    lookupTable defaultTable band3 = some ⟨125/16, 1/5, 1, 21/5, 4/5, 0, 0⟩ := by
  simp [lookupTable, defaultTable, spreadFold, initTable, applySpread,
    nextB1, m2Spread, band1, band2, band3, band4]
  norm_num

lemma lookup_band4 :
    lookupTable defaultTable band4 = some ⟨0, 0, 0, 0, 4/5, 0, 0⟩ := by
  simp [lookupTable, defaultTable, spreadFold, initTable, applySpread,
    nextB1, m2Spread, band1, band2, band3, band4]

lemma prioVal_band1 (c : ℚ) :
    prioVal band1 c = specPriorityCurve (105/4) (79/5) 20 (83/5) 0 c := by
  rw [prioVal, calculate_priority_one, lookup_band1]
  simp only [Option.map_some', Option.getD_some, pyStrIntEq,
    Bool.false_eq_true, if_false, specPriorityCurve]
  norm_num

lemma prioVal_band2 (c : ℚ) :
    prioVal band2 c = specPriorityCurve (115/8) (27/5) 6 (49/5) 0 c := by
  rw [prioVal, calculate_priority_one, lookup_band2]
  simp only [Option.map_some', Option.getD_some, pyStrIntEq,
    Bool.false_eq_true, if_false, specPriorityCurve]
  norm_num

lemma prioVal_band3 (c : ℚ) :
    prioVal band3 c = specPriorityCurve (125/16) (1/5) 1 (22/5) 0 c := by
  rw [prioVal, calculate_priority_one, lookup_band3]
  simp only [Option.map_some', Option.getD_some, pyStrIntEq,
    Bool.false_eq_true, if_false, specPriorityCurve]
  norm_num

lemma prioVal_band4 (c : ℚ) :
    prioVal band4 c = specPriorityCurve 0 0 0 0 0 c := by
  rw [prioVal, calculate_priority_one, lookup_band4]
  simp only [Option.map_some', Option.getD_some, pyStrIntEq,
    Bool.false_eq_true, if_false, specPriorityCurve]
  norm_num

lemma calculate_priority_one_default (b : String) (c : ℚ)
    (hb : b = band1 ∨ b = band2 ∨ b = band3 ∨ b = band4) :
    calculate_priority_one defaultTable b c = some (prioVal b c) := by
  rcases hb with h | h | h | h <;> subst h <;>
    rw [prioVal, calculate_priority_one] <;>
    first
      | (rw [lookup_band1]; rfl)
      | (rw [lookup_band2]; rfl)
      | (rw [lookup_band3]; rfl)
      | (rw [lookup_band4]; rfl)

/-- C2: for every completion fraction, the priority computed by `tick`
follows each band's piecewise formula — `0` at completion `0`, the quadratic
`m1 * c^2 + b1` below `xb`, the linear `m2 * c + b2'` on `[xb, 1)` with the
intercept `b2'` recomputed at evaluation time as the stored `b2 + xb0 + b1`,
and `m2 * 1 + b2' + xc0` from `1` on; in particular the priority is `0` at
completion `0` for every band. The shown parameters are the stored table
values, with `b2'` written as the stored sum. -/
theorem priority_piecewise_formula (c : ℚ) :
    calculate_priority_one defaultTable band1 c =
      some (specPriorityCurve (105/4) (79/5) 20 (4/5 + 0 + 79/5) 0 c) ∧
    calculate_priority_one defaultTable band2 c =
      some (specPriorityCurve (115/8) (27/5) 6 (22/5 + 0 + 27/5) 0 c) ∧
    calculate_priority_one defaultTable band3 c =
      some (specPriorityCurve (125/16) (1/5) 1 (21/5 + 0 + 1/5) 0 c) ∧
    calculate_priority_one defaultTable band4 c =
      some (specPriorityCurve 0 0 0 (0 + 0 + 0) 0 c) ∧
    calculate_priority_one defaultTable band1 0 = some 0 ∧
    calculate_priority_one defaultTable band2 0 = some 0 ∧
    calculate_priority_one defaultTable band3 0 = some 0 ∧
    calculate_priority_one defaultTable band4 0 = some 0 := by
  refine ⟨?_, ?_, ?_, ?_, ?_, ?_, ?_, ?_⟩
  · rw [calculate_priority_one, lookup_band1]
    simp only [Option.map_some', pyStrIntEq, Bool.false_eq_true, if_false,
      specPriorityCurve]
  · rw [calculate_priority_one, lookup_band2]
    simp only [Option.map_some', pyStrIntEq, Bool.false_eq_true, if_false,
      specPriorityCurve]
  · rw [calculate_priority_one, lookup_band3]
    simp only [Option.map_some', pyStrIntEq, Bool.false_eq_true, if_false,
      specPriorityCurve]
  · rw [calculate_priority_one, lookup_band4]
    simp only [Option.map_some', pyStrIntEq, Bool.false_eq_true, if_false,
      specPriorityCurve]
  · rw [calculate_priority_one, lookup_band1]; simp
  · rw [calculate_priority_one, lookup_band2]; simp
  · rw [calculate_priority_one, lookup_band3]; simp
  · rw [calculate_priority_one, lookup_band4]; simp

/-- C5 counterexample: after `add_obs` with `allocated_time = -1` and
`obs_time = 1` (which the assert accepts), the computed completion is `-1`,
outside `[0, 1]` — the claim that completion always lies in `[0, 1]` fails
on the code, which clamps only at the upper bound. -/
theorem completion_below_zero :
    calculate_completion (add_obs initialObservations band1 [] (-1) 1).1 =
      [-1] ∧ ((-1 : ℚ) < 0) := by
  constructor
  · simp [add_obs, initialObservations, calculate_completion, zipWith3,
      calcCompletionOne]
  · norm_num

/-- C5 amended: the completion of an observation is exactly
`(used_time + obs_time) / allocated_time` clamped at the upper bound `1.0`;
it lies in `[0, 1]` provided `allocated_time` is positive and
`used_time + obs_time` is nonnegative (for a negative allocation the code
can produce a completion below `0`). -/
theorem completion_clamped_above (u a o : ℚ) :
    calcCompletionOne u a o = min ((u + o) / a) 1 ∧
    (0 < a → 0 ≤ u + o →
      0 ≤ calcCompletionOne u a o ∧ calcCompletionOne u a o ≤ 1) := by
  have hmin : calcCompletionOne u a o = min ((u + o) / a) 1 := by
    show (if ((u + o) / a : ℚ) > 1 then (1 : ℚ) else (u + o) / a) =
      min ((u + o) / a) 1
    rcases le_or_lt ((u + o) / a) 1 with h | h
    · rw [if_neg (not_lt.2 h), min_eq_left h]
    · rw [if_pos h, min_eq_right h.le]
  refine ⟨hmin, fun ha hu => ?_⟩
  have hdiv : 0 ≤ (u + o) / a := div_nonneg hu ha.le
  rw [hmin]
  exact ⟨le_min hdiv (by norm_num), min_le_right _ _⟩

/-- C5 witness: the amended statement evaluated at `used_time = 0`,
`allocated_time = 2`, `obs_time = 1`. -/
theorem completion_clamped_above_witness :
    calcCompletionOne 0 2 1 = min ((0 + 1) / 2) 1 ∧
    (0 ≤ calcCompletionOne 0 2 1 ∧ calcCompletionOne 0 2 1 ≤ 1) :=
  ⟨(completion_clamped_above 0 2 1).1,
   (completion_clamped_above 0 2 1).2 (by norm_num) (by norm_num)⟩

/-- C6: `add_obs` with `allocated_time = 0` fails its assert (`false` is the
raised `AssertionError`), and since the assert precedes every mutation the
observation count and all per-observation arrays are exactly as before. -/
theorem add_obs_zero_alloc_rejected (s : Observations) (b : String)
    (vt : List (ℕ × List Site)) (ot : ℚ) :
    add_obs s b vt 0 ot = (s, false) ∧
    (add_obs s b vt 0 ot).1.num_obs = s.num_obs ∧
    (add_obs s b vt 0 ot).1.band = s.band ∧
    (add_obs s b vt 0 ot).1.used_time = s.used_time ∧
    (add_obs s b vt 0 ot).1.allocated_time = s.allocated_time ∧
    (add_obs s b vt 0 ot).1.obs_time = s.obs_time ∧
    (add_obs s b vt 0 ot).1.valid_site_times = s.valid_site_times := by
  simp [add_obs]

/-- C8: the band-3 special case in `calculate_priority` is dead code. The
guard `self.band[ii] == 3` compares a numpy string with the int `3` and is
always `False`, so `xb` is always read from the parameter table: with the
table entry for band `'3'` mutated to `xb = 1/2` (the table is mutable
instance state), a band-3 observation at completion `7/10` is scored on the
linear segment (`1 * (7/10) + 22/5 = 51/10`), not on the quadratic segment
that the fixed threshold `0.8` would select. -/
theorem band3_xb_read_from_table :
    pyStrIntEq band3 3 = false ∧
    calculate_priority_one (setXb defaultTable band3 (1/2)) band3 (7/10) =
      some (1 * (7/10) + 22/5) ∧
    ((1 * ((7:ℚ)/10) + 22/5) ≠ 125/16 * (7/10)^2 + 1/5) := by
  refine ⟨rfl, ?_, by norm_num⟩
  have h : lookupTable (setXb defaultTable band3 (1/2)) band3 =
      some ⟨125/16, 1/5, 1, 21/5, 1/2, 0, 0⟩ := by
    simp [setXb, lookupTable, defaultTable, spreadFold, initTable,
      applySpread, nextB1, m2Spread, band1, band2, band3, band4]
    norm_num
  rw [calculate_priority_one, h]
  simp only [Option.map_some', pyStrIntEq, Bool.false_eq_true, if_false]
  norm_num

/-- C10: the assert in `add_obs` rejects only `allocated_time` exactly `0`:
every nonzero (in particular negative) allocation is accepted and appended,
and the subsequent completion computation can then produce a value below
`0`, since the clamp is only at the upper bound. -/
theorem add_obs_negative_alloc_accepted :
    (∀ (s : Observations) (b : String) (vt : List (ℕ × List Site))
        (a ot : ℚ), a ≠ 0 →
      (add_obs s b vt a ot).2 = true ∧
      (add_obs s b vt a ot).1.num_obs = s.num_obs + 1 ∧
      (add_obs s b vt a ot).1.allocated_time = s.allocated_time ++ [a]) ∧
    (add_obs initialObservations band1 [] (-1) 1).2 = true ∧
    calculate_completion (add_obs initialObservations band1 [] (-1) 1).1 =
      [-1] ∧ ((-1 : ℚ) < 0) := by
  refine ⟨fun s b vt a ot ha => ?_, ?_, ?_, by norm_num⟩
  · simp [add_obs, ha]
  · simp [add_obs, initialObservations]
  · simp [add_obs, initialObservations, calculate_completion, zipWith3,
      calcCompletionOne]

/-- C10 witness: an `add_obs` with `allocated_time = -5` succeeds. -/
theorem add_obs_negative_alloc_accepted_witness :
    (add_obs initialObservations band2 [] (-5) 2).2 = true :=
  (add_obs_negative_alloc_accepted.1 initialObservations band2 [] (-5) 2
    (by norm_num)).1

lemma spc_band3_le (c : ℚ) (h0 : 0 < c) (h1 : c ≤ 1) :
    specPriorityCurve (125/16) (1/5) 1 (22/5) 0 c ≤ 27/5 := by
  unfold specPriorityCurve
  split_ifs with hA hB hC
  · norm_num
  · nlinarith [mul_nonneg (by linarith : (0:ℚ) ≤ 4/5 - c)
      (by linarith : (0:ℚ) ≤ 4/5 + c)]
  · linarith
  · linarith

lemma spc_band2_gt (c : ℚ) (h0 : 0 < c) (h1 : c ≤ 1) :
    27/5 < specPriorityCurve (115/8) (27/5) 6 (49/5) 0 c := by
  unfold specPriorityCurve
  split_ifs with hA hB hC
  · linarith
  · nlinarith [mul_pos h0 h0]
  · linarith
  · linarith

lemma spc_band2_le (c : ℚ) (h0 : 0 < c) (h1 : c ≤ 1) :
    specPriorityCurve (115/8) (27/5) 6 (49/5) 0 c ≤ 79/5 := by
  unfold specPriorityCurve
  split_ifs with hA hB hC
  · norm_num
  · nlinarith [mul_nonneg (by linarith : (0:ℚ) ≤ 4/5 - c)
      (by linarith : (0:ℚ) ≤ 4/5 + c)]
  · linarith
  · linarith

lemma spc_band1_gt (c : ℚ) (h0 : 0 < c) (h1 : c ≤ 1) :
    79/5 < specPriorityCurve (105/4) (79/5) 20 (83/5) 0 c := by
  unfold specPriorityCurve
  split_ifs with hA hB hC
  · linarith
  · nlinarith [mul_pos h0 h0]
  · linarith
  · linarith

lemma spc_nonneg (m1 b1 m2 b2x xc0 : ℚ) (hm1 : 0 ≤ m1) (hm2 : 0 ≤ m2)
    (hb1 : 0 ≤ b1) (hxc : 0 ≤ xc0)
    (hjoin : m1 * (4/5)^2 + b1 ≤ m2 * (4/5) + b2x) (c : ℚ) :
    0 ≤ specPriorityCurve m1 b1 m2 b2x xc0 c := by
  unfold specPriorityCurve
  split_ifs with hA hB hC
  · exact le_refl 0
  · nlinarith [mul_nonneg hm1 (mul_self_nonneg c)]
  · nlinarith [mul_nonneg hm2 (by linarith [not_lt.1 hB] : (0:ℚ) ≤ c - 4/5),
      mul_nonneg hm1 (by norm_num : (0:ℚ) ≤ (4/5:ℚ)^2)]
  · nlinarith [mul_nonneg hm2 (by norm_num : (0:ℚ) ≤ (1:ℚ) - 4/5),
      mul_nonneg hm1 (by norm_num : (0:ℚ) ≤ (4/5:ℚ)^2)]

lemma specPriorityCurve_mono (m1 b1 m2 b2x xc0 : ℚ) (hm1 : 0 ≤ m1)
    (hm2 : 0 ≤ m2) (hb1 : 0 ≤ b1) (hxc : 0 ≤ xc0)
    (hjoin : m1 * (4/5)^2 + b1 ≤ m2 * (4/5) + b2x)
    (c1 c2 : ℚ) (h0 : 0 ≤ c1) (h12 : c1 ≤ c2) (h21 : c2 ≤ 1) :
    specPriorityCurve m1 b1 m2 b2x xc0 c1 ≤
      specPriorityCurve m1 b1 m2 b2x xc0 c2 := by
  by_cases hA1 : c1 = 0
  · have hl : specPriorityCurve m1 b1 m2 b2x xc0 c1 = 0 := by
      unfold specPriorityCurve
      rw [if_pos hA1]
    rw [hl]
    exact spc_nonneg m1 b1 m2 b2x xc0 hm1 hm2 hb1 hxc hjoin c2
  · have hc1 : 0 < c1 := h0.lt_of_ne (Ne.symm hA1)
    have hA2 : ¬ c2 = 0 := ne_of_gt (lt_of_lt_of_le hc1 h12)
    unfold specPriorityCurve
    rw [if_neg hA1, if_neg hA2]
    by_cases hB1 : c1 < 4/5
    · rw [if_pos hB1]
      by_cases hB2 : c2 < 4/5
      · rw [if_pos hB2]
        nlinarith [mul_nonneg (mul_nonneg hm1 (sub_nonneg.2 h12))
          (by linarith : (0:ℚ) ≤ c1 + c2)]
      · rw [if_neg hB2]
        have hc24 : (4:ℚ)/5 ≤ c2 := not_lt.1 hB2
        by_cases hC2 : c2 < 1
        · rw [if_pos hC2]
          nlinarith [mul_nonneg hm1 (mul_nonneg
              (by linarith : (0:ℚ) ≤ 4/5 - c1) (by linarith : (0:ℚ) ≤ 4/5 + c1)),
            mul_nonneg hm2 (by linarith : (0:ℚ) ≤ c2 - 4/5)]
        · rw [if_neg hC2]
          nlinarith [mul_nonneg hm1 (mul_nonneg
              (by linarith : (0:ℚ) ≤ 4/5 - c1) (by linarith : (0:ℚ) ≤ 4/5 + c1)),
            mul_nonneg hm2 (by norm_num : (0:ℚ) ≤ 1 - 4/5)]
    · rw [if_neg hB1]
      have hc14 : (4:ℚ)/5 ≤ c1 := not_lt.1 hB1
      have hB2 : ¬ c2 < 4/5 := not_lt.2 (le_trans hc14 h12)
      rw [if_neg hB2]
      by_cases hC1 : c1 < 1
      · rw [if_pos hC1]
        by_cases hC2 : c2 < 1
        · rw [if_pos hC2]
          nlinarith [mul_nonneg hm2 (sub_nonneg.2 h12)]
        · rw [if_neg hC2]
          nlinarith [mul_nonneg hm2 (by linarith : (0:ℚ) ≤ 1 - c1)]
      · rw [if_neg hC1]
        have hC2 : ¬ c2 < 1 := not_lt.2 (le_trans (not_lt.1 hC1) h12)
        rw [if_neg hC2]

/-- The derived table written out: the spreading loop yields these exact
rational parameters (band 4 keeps its all-zero row). -/
lemma defaultTable_eq : defaultTable =
    [(band1, ⟨105/4, 79/5, 20, 4/5, 4/5, 0, 0⟩),
     (band2, ⟨115/8, 27/5, 6, 22/5, 4/5, 0, 0⟩),
     (band3, ⟨125/16, 1/5, 1, 21/5, 4/5, 0, 0⟩),
     (band4, ⟨0, 0, 0, 0, 4/5, 0, 0⟩)] := by
  simp [defaultTable, spreadFold, initTable, applySpread, nextB1, m2Spread,
    band1, band2, band3, band4]
  norm_num

/-- C4: for every band of the derived table, the quadratic segment and the
linear segment agree in value at `completion = xb`:
`m1 * xb^2 + b1 = m2 * xb + b2x` with `b2x = b2 + xb0 + b1` the
evaluation-time intercept — the curve has no jump at the segment join. -/
theorem curve_continuous_at_xb (b : String) (p : BandParams)
    (hp : lookupTable defaultTable b = some p) :
    p.m1 * p.xb ^ 2 + p.b1 = p.m2 * p.xb + (p.b2 + p.xb0 + p.b1) := by
  rw [lookupTable] at hp
  rcases Option.map_eq_some'.1 hp with ⟨kv, hfind, hsnd⟩
  have hmem : kv ∈ defaultTable := List.mem_of_find?_eq_some hfind
  rw [defaultTable_eq] at hmem
  simp only [List.mem_cons, List.not_mem_nil, or_false] at hmem
  subst hsnd
  rcases hmem with h | h | h | h <;> rw [h] <;> norm_num

/-- C4 witness: the join identity evaluated on the stored band-3 row. -/
theorem curve_continuous_at_xb_witness :
    (⟨125/16, 1/5, 1, 21/5, 4/5, 0, 0⟩ : BandParams).m1 *
        (⟨125/16, 1/5, 1, 21/5, 4/5, 0, 0⟩ : BandParams).xb ^ 2 +
        (⟨125/16, 1/5, 1, 21/5, 4/5, 0, 0⟩ : BandParams).b1 =
      (⟨125/16, 1/5, 1, 21/5, 4/5, 0, 0⟩ : BandParams).m2 *
        (⟨125/16, 1/5, 1, 21/5, 4/5, 0, 0⟩ : BandParams).xb +
        ((⟨125/16, 1/5, 1, 21/5, 4/5, 0, 0⟩ : BandParams).b2 +
          (⟨125/16, 1/5, 1, 21/5, 4/5, 0, 0⟩ : BandParams).xb0 +
          (⟨125/16, 1/5, 1, 21/5, 4/5, 0, 0⟩ : BandParams).b1) :=
  curve_continuous_at_xb band3 _ lookup_band3

/-- C3: band separation. For completions in `(0, 1]`, every priority of
band 2 is positive and strictly above the maximum band-3 priority, and every
priority of band 1 is positive and strictly above the maximum band-2
priority, so distinct non-4 bands never produce overlapping positive
priority values. -/
theorem band_separation (c1 c2 : ℚ) (h1 : 0 < c1) (h1x : c1 ≤ 1)
    (h2 : 0 < c2) (h2x : c2 ≤ 1) :
    0 < prioVal band2 c2 ∧ prioVal band3 c1 < prioVal band2 c2 ∧
    0 < prioVal band1 c2 ∧ prioVal band2 c1 < prioVal band1 c2 := by
  rw [prioVal_band3 c1, prioVal_band2 c2, prioVal_band2 c1, prioVal_band1 c2]
  refine ⟨?_, ?_, ?_, ?_⟩
  · linarith [spc_band2_gt c2 h2 h2x]
  · exact lt_of_le_of_lt (spc_band3_le c1 h1 h1x) (spc_band2_gt c2 h2 h2x)
  · linarith [spc_band1_gt c2 h2 h2x]
  · exact lt_of_le_of_lt (spc_band2_le c1 h1 h1x) (spc_band1_gt c2 h2 h2x)

/-- C3 witness: band separation evaluated at completion `1/2` for both
bands of each pair. -/
theorem band_separation_witness :
    0 < prioVal band2 (1/2) ∧ prioVal band3 (1/2) < prioVal band2 (1/2) ∧
    0 < prioVal band1 (1/2) ∧ prioVal band2 (1/2) < prioVal band1 (1/2) :=
  band_separation (1/2) (1/2) (by norm_num) (by norm_num) (by norm_num)
    (by norm_num)

/-- C7: for a fixed band other than 4, the priority is non-decreasing in
completion over `[0, 1]`, including across the jump at `0` and across the
segment boundary at `xb`. -/
theorem priority_monotone (b : String)
    (hb : b = band1 ∨ b = band2 ∨ b = band3) (c1 c2 : ℚ)
    (h0 : 0 ≤ c1) (h12 : c1 ≤ c2) (h21 : c2 ≤ 1) :
    prioVal b c1 ≤ prioVal b c2 := by
  rcases hb with h | h | h <;> subst h
  · rw [prioVal_band1 c1, prioVal_band1 c2]
    exact specPriorityCurve_mono _ _ _ _ _ (by norm_num) (by norm_num)
      (by norm_num) (by norm_num) (by norm_num) c1 c2 h0 h12 h21
  · rw [prioVal_band2 c1, prioVal_band2 c2]
    exact specPriorityCurve_mono _ _ _ _ _ (by norm_num) (by norm_num)
      (by norm_num) (by norm_num) (by norm_num) c1 c2 h0 h12 h21
  · rw [prioVal_band3 c1, prioVal_band3 c2]
    exact specPriorityCurve_mono _ _ _ _ _ (by norm_num) (by norm_num)
      (by norm_num) (by norm_num) (by norm_num) c1 c2 h0 h12 h21

/-- C7 witness: monotonicity of band 1 between completions `0` and `1`. -/
theorem priority_monotone_witness : prioVal band1 0 ≤ prioVal band1 1 :=
  priority_monotone band1 (Or.inl rfl) 0 1 (by norm_num) (by norm_num)
    (by norm_num)

lemma mapOpt_length (f : α → Option β) :
    ∀ (l : List α) (l2 : List β), mapOpt f l = some l2 → l2.length = l.length
  | [], l2, h => by
      simp only [mapOpt, Option.some.injEq] at h
      rw [← h]
      rfl
  | x :: xs, l2, h => by
      simp only [mapOpt, Option.bind_eq_some, Option.map_eq_some'] at h
      rcases h with ⟨y, _, ⟨ys, hys, rfl⟩⟩
      simp [mapOpt_length f xs ys hys]

lemma zipWith3_length_eq (f : α → β → γ → δ) :
    ∀ (as : List α) (bs : List β) (cs : List γ),
      as.length = bs.length → bs.length = cs.length →
      (zipWith3 f as bs cs).length = as.length
  | [], [], [], _, _ => rfl
  | [], b :: bs, _, h1, _ => by simp at h1
  | a :: as, [], _, h1, _ => by simp at h1
  | [], [], c :: cs, _, h2 => by simp at h2
  | a :: as, b :: bs, [], _, h2 => by simp at h2
  | a :: as, b :: bs, c :: cs, h1, h2 => by
      simp only [zipWith3, List.length_cons]
      rw [zipWith3_length_eq f as bs cs (by simpa using h1) (by simpa using h2)]

lemma calculate_priority_length (s : Observations) (pr : List ℚ)
    (hb : s.band.length = s.num_obs) (hu : s.used_time.length = s.num_obs)
    (ha : s.allocated_time.length = s.num_obs)
    (ho : s.obs_time.length = s.num_obs)
    (hpr : calculate_priority s = some pr) : pr.length = s.num_obs := by
  have hcomp : (calculate_completion s).length = s.num_obs := by
    rw [calculate_completion,
      zipWith3_length_eq _ _ _ _ (by rw [hu, ha]) (by rw [ha, ho]), hu]
  have hlen := mapOpt_length _ _ _ hpr
  rw [List.length_zip, hb, hcomp, min_self] at hlen
  exact hlen

lemma tickOrder_eq (pr : List ℚ) (hne : pr ≠ []) :
    tickOrder pr = some
      (((List.insertionSort lexLe (pr.zip (List.range pr.length))).reverse).map
        Prod.snd) := by
  have hlen :
      (List.insertionSort lexLe (pr.zip (List.range pr.length))).length =
        pr.length := by
    rw [(List.perm_insertionSort lexLe _).length_eq, List.length_zip,
      List.length_range, min_self]
  rw [tickOrder, if_neg]
  rw [List.isEmpty_iff, List.reverse_eq_nil_iff]
  intro h0
  rw [h0] at hlen
  exact hne (List.length_eq_zero.1 hlen.symm)

lemma zip_range_fact (pr : List ℚ) (x : ℚ × ℕ)
    (hx : x ∈ pr.zip (List.range pr.length)) :
    x.1 = pr.getD x.2 0 ∧ x.2 < pr.length := by
  have hlen : (pr.zip (List.range pr.length)).length = pr.length := by
    rw [List.length_zip, List.length_range, min_self]
  rcases List.mem_iff_getElem.1 hx with ⟨i, hi, heq⟩
  have hip : i < pr.length := hlen ▸ hi
  rw [List.getElem_zip, List.getElem_range] at heq
  rw [← heq]
  exact ⟨(List.getD_eq_getElem pr 0 hip).symm, hip⟩

lemma tickOrder_spec (pr : List ℚ) (l : List ℕ) (h : tickOrder pr = some l) :
    l.Perm (List.range pr.length) ∧
    l.Pairwise (fun i j => pr.getD j 0 ≤ pr.getD i 0) ∧
    l.Pairwise (fun i j => pr.getD i 0 = pr.getD j 0 → j < i) := by
  by_cases hne : pr = []
  · subst hne
    simp [tickOrder, List.insertionSort] at h
  rw [tickOrder_eq pr hne, Option.some.injEq] at h
  subst h
  have hperm_srt := List.perm_insertionSort lexLe
    (pr.zip (List.range pr.length))
  have hsorted := List.sorted_insertionSort lexLe
    (pr.zip (List.range pr.length))
  have hrevperm :
      ((List.insertionSort lexLe (pr.zip (List.range pr.length))).reverse).Perm
        (pr.zip (List.range pr.length)) :=
    (List.reverse_perm _).trans hperm_srt
  have hfact : ∀ x ∈ (List.insertionSort lexLe
      (pr.zip (List.range pr.length))).reverse,
      x.1 = pr.getD x.2 0 ∧ x.2 < pr.length :=
    fun x hx => zip_range_fact pr x (hrevperm.subset hx)
  have hrev_sorted : List.Pairwise (fun a b => lexLe b a)
      (List.insertionSort lexLe (pr.zip (List.range pr.length))).reverse :=
    List.pairwise_reverse.2 hsorted
  have hmapsnd : (pr.zip (List.range pr.length)).map Prod.snd =
      List.range pr.length :=
    List.map_snd_zip _ _ (by rw [List.length_range])
  have hperm_l : ((List.insertionSort lexLe
      (pr.zip (List.range pr.length))).reverse.map Prod.snd).Perm
        (List.range pr.length) := by
    have h2 := hrevperm.map Prod.snd
    rw [hmapsnd] at h2
    exact h2
  refine ⟨hperm_l, ?_, ?_⟩
  · refine List.pairwise_map.2 ?_
    refine List.Pairwise.imp_of_mem ?_ hrev_sorted
    intro a b ha hb hab
    rw [← (hfact a ha).1, ← (hfact b hb).1]
    rcases hab with h | ⟨h, _⟩
    · exact le_of_lt h
    · exact le_of_eq h
  · have hnodup : ((List.insertionSort lexLe
        (pr.zip (List.range pr.length))).reverse.map Prod.snd).Nodup :=
      hperm_l.symm.nodup (List.nodup_range _)
    have hne2 : List.Pairwise (fun x y : ℚ × ℕ => x.2 ≠ y.2)
        (List.insertionSort lexLe (pr.zip (List.range pr.length))).reverse :=
      List.pairwise_map.1 hnodup
    refine List.pairwise_map.2 ?_
    refine List.Pairwise.imp_of_mem ?_ (hrev_sorted.and hne2)
    intro a b ha hb hab heq
    rcases hab with ⟨hlex, hneq⟩
    rw [← (hfact a ha).1, ← (hfact b hb).1] at heq
    rcases hlex with h | ⟨h, h2⟩
    · exact absurd heq.symm (ne_of_lt h)
    · exact lt_of_le_of_ne h2 (Ne.symm hneq)

/-- C1 counterexample: on the freshly initialized (empty) set, `tick` does
not yield an ordering at all — the `[1]` indexing of the transposed empty
pair list raises an `IndexError` (`none`). -/
theorem tick_empty_fails : tick initialObservations 0 = none := rfl

/-- C1 amended: for every well-formed `Observations` state that is nonempty
and whose priorities are computable (every band is a key of the parameter
table, witnessed by `calculate_priority` succeeding), `tick` yields a
sequence of the observation indices that covers every observation (a
permutation of `range num_obs`) and is sorted by priority in descending
order. -/
theorem tick_sorted_descending (s : Observations) (t : ℕ) (pr : List ℚ)
    (hb : s.band.length = s.num_obs) (hu : s.used_time.length = s.num_obs)
    (ha : s.allocated_time.length = s.num_obs)
    (ho : s.obs_time.length = s.num_obs)
    (hpr : calculate_priority s = some pr) (hne : s.num_obs ≠ 0) :
    ∃ l, tick s t = some l ∧ l.Perm (List.range s.num_obs) ∧
      l.Pairwise (fun i j => pr.getD j 0 ≤ pr.getD i 0) := by
  have hlen : pr.length = s.num_obs :=
    calculate_priority_length s pr hb hu ha ho hpr
  have hprne : pr ≠ [] := by
    intro h
    rw [h] at hlen
    exact hne hlen.symm
  have htick : tick s t = tickOrder pr := by rw [tick, hpr]; rfl
  have hspec := tickOrder_spec pr _ (tickOrder_eq pr hprne)
  exact ⟨_, by rw [htick, tickOrder_eq pr hprne], by rw [← hlen]; exact hspec.1,
    hspec.2.1⟩

/-- C9: the ordering produced by `tick` breaks priority ties by descending
observation index: whenever two listed indices carry exactly equal
priorities, the later-inserted (higher) index precedes the lower one,
because the ordering reverses an ascending lexicographic sort of
`(priority, index)` pairs. -/
theorem tick_tie_break (s : Observations) (t : ℕ) (pr : List ℚ) (l : List ℕ)
    (hpr : calculate_priority s = some pr) (hl : tick s t = some l) :
    l.Pairwise (fun i j => pr.getD i 0 = pr.getD j 0 → j < i) := by
  rw [tick, hpr] at hl
  exact (tickOrder_spec pr l hl).2.2

/-- One observation in band 3 with half of its allocation pending: witness
state for the ordering theorem. -/
def exampleOneObs : Observations := (add_obs initialObservations band3 [] 2 1).1

lemma exampleOneObs_eq : exampleOneObs =
    { num_obs := 1, band := [band3], completed := [], used_time := [0],
      allocated_time := [2], obs_time := [1], valid_site_times := [[]],
      priority := [], timeslot := 0, params := defaultTable } := by
  simp [exampleOneObs, add_obs, initialObservations]

lemma prio_band3_half : calculate_priority_one defaultTable band3 (2⁻¹) =
    some (689/320) := by
  rw [calculate_priority_one, lookup_band3]
  simp only [Option.map_some', pyStrIntEq, Bool.false_eq_true, if_false]
  norm_num

lemma calculate_priority_exampleOneObs :
    calculate_priority exampleOneObs = some [689/320] := by
  have hc : calculate_completion exampleOneObs = [1/2] := by
    rw [exampleOneObs_eq]
    simp [calculate_completion, zipWith3, calcCompletionOne]
    norm_num
  rw [calculate_priority, hc, exampleOneObs_eq]
  simp [mapOpt, prio_band3_half]

/-- C1 witness: the ordering theorem applied to the one-observation witness
state, whose priority list is `[689/320]`. -/
theorem tick_sorted_descending_witness :
    ∃ l, tick exampleOneObs 0 = some l ∧
      l.Perm (List.range exampleOneObs.num_obs) ∧
      l.Pairwise (fun i j =>
        ([689/320] : List ℚ).getD j 0 ≤ ([689/320] : List ℚ).getD i 0) :=
  tick_sorted_descending exampleOneObs 0 [689/320]
    (by rw [exampleOneObs_eq]; rfl) (by rw [exampleOneObs_eq]; rfl)
    (by rw [exampleOneObs_eq]; rfl) (by rw [exampleOneObs_eq]; rfl)
    calculate_priority_exampleOneObs (by rw [exampleOneObs_eq]; simp)

/-- Two identical band-3 observations with equal priorities: witness state
for the tie-break theorem. -/
def exampleTieObs : Observations :=
  (add_obs (add_obs initialObservations band3 [] 2 1).1 band3 [] 2 1).1

lemma exampleTieObs_eq : exampleTieObs =
    { num_obs := 2, band := [band3, band3], completed := [],
      used_time := [0, 0], allocated_time := [2, 2], obs_time := [1, 1],
      valid_site_times := [[], []], priority := [], timeslot := 0,
      params := defaultTable } := by
  simp [exampleTieObs, add_obs, initialObservations]

lemma calculate_priority_exampleTieObs :
    calculate_priority exampleTieObs = some [689/320, 689/320] := by
  have hc : calculate_completion exampleTieObs = [1/2, 1/2] := by
    rw [exampleTieObs_eq]
    simp [calculate_completion, zipWith3, calcCompletionOne]
    norm_num
  rw [calculate_priority, hc, exampleTieObs_eq]
  simp [mapOpt, prio_band3_half]

lemma tick_exampleTieObs : tick exampleTieObs 0 = some [1, 0] := by
  rw [tick, calculate_priority_exampleTieObs]
  have hbind : (some ([689/320, 689/320] : List ℚ)).bind tickOrder =
      tickOrder [689/320, 689/320] := rfl
  rw [hbind, tickOrder_eq _ (by simp)]
  have hrange : List.range ([689/320, 689/320] : List ℚ).length = [0, 1] := rfl
  rw [hrange]
  have hzip : ([689/320, 689/320] : List ℚ).zip [0, 1] =
      [((689:ℚ)/320, 0), ((689:ℚ)/320, 1)] := by
    simp
  rw [hzip]
  have hlex : lexLe ((689:ℚ)/320, 0) ((689:ℚ)/320, 1) :=
    Or.inr ⟨rfl, by norm_num⟩
  have hsort : List.insertionSort lexLe
      [((689:ℚ)/320, 0), ((689:ℚ)/320, 1)] =
      [((689:ℚ)/320, 0), ((689:ℚ)/320, 1)] := by
    simp [List.insertionSort, List.orderedInsert, hlex]
  rw [hsort]
  simp

/-- C9 witness: the tie-break theorem applied to the two-identical-
observations witness state: both priorities are `689/320` and the produced
ordering is `[1, 0]` — the higher index first. -/
theorem tick_tie_break_witness :
    List.Pairwise (fun i j =>
      ([689/320, 689/320] : List ℚ).getD i 0 =
        ([689/320, 689/320] : List ℚ).getD j 0 → j < i) [1, 0] :=
  tick_tie_break exampleTieObs 0 [689/320, 689/320] [1, 0]
    calculate_priority_exampleTieObs tick_exampleTieObs

end GeminiSched
